import Mathlib

/-!
# Verification of the filemaker client's resilient request-execution core

Shallow embedding of the error taxonomy (`errors.go`), the response parsing
(`client.go`), the retry engine (`RetryConfig`: `shouldRetry`,
`calculateBackoff`, `executeWithRetry`), and the session bracket
(`withAuth` in the record service, `Do` in the search service).

Conventions of the embedding:
* A Go `error` value is `Option GoError`; `none` is Go's `nil` error.
* Each taxonomy error struct carries its `Err` field as a `GoError`
  (the `Unwrap` chain), where `GoError.nilError` stands for a nil `Err`
  field — a chain terminator, never a standalone error value.
  `GoError.wrapped` is an error built by `fmt.Errorf("...: %w", err)`,
  whose `Unwrap` yields the wrapped error.
* `GoError.contextCanceled` stands for the error returned by `ctx.Err()`
  of a cancelled (or deadline-exceeded) context.
* `GoError.foreign` stands for any error value foreign to the taxonomy
  (for example the `*url.Error` produced by `http.Client.Do`); it has no
  `Unwrap` chain relevant to the taxonomy predicates.
* `time.Duration` values are modelled as `Int` (nanosecond counts) and the
  float64 arithmetic of `calculateBackoff` as exact rational arithmetic;
  the truncating float-to-`time.Duration` conversion becomes `ratTrunc`
  (truncation toward zero).
-/

namespace Filemaker

/-- The Go error values relevant to the library: the five taxonomy structs of
`errors.go` (each with its `Err` field as the unwrap chain, `nilError`
meaning the field is nil), `fmt.Errorf` wrappers, the context-cancellation
error, and foreign errors. -/
inductive GoError where
  | fileMakerError (code message : String) (httpStatus : Int) (err : GoError)
  | validationError (field message : String) (err : GoError)
  | authenticationError (message : String) (err : GoError)
  | networkError (message : String) (err : GoError)
  | timeoutError (message : String) (err : GoError)
  | wrapped (message : String) (err : GoError)
  | contextCanceled
  | foreign (message : String)
  | nilError
deriving DecidableEq, Repr

namespace GoError

/-- `errors.As(err, &fmErr)` for `*FileMakerError`: the first
`FileMakerError` in the unwrap chain, if any. -/
def asFileMakerError : GoError → Option GoError
  | .fileMakerError c m s e => some (.fileMakerError c m s e)
  | .validationError _ _ e => asFileMakerError e
  | .authenticationError _ e => asFileMakerError e
  | .networkError _ e => asFileMakerError e
  | .timeoutError _ e => asFileMakerError e
  | .wrapped _ e => asFileMakerError e
  | .contextCanceled => none
  | .foreign _ => none
  | .nilError => none

/-- `errors.As(err, &netErr)` for `*NetworkError`: does the unwrap chain
contain a `NetworkError`? -/
def chainHasNetworkError : GoError → Bool
  | .networkError _ _ => true
  | .fileMakerError _ _ _ e => chainHasNetworkError e
  | .validationError _ _ e => chainHasNetworkError e
  | .authenticationError _ e => chainHasNetworkError e
  | .timeoutError _ e => chainHasNetworkError e
  | .wrapped _ e => chainHasNetworkError e
  | .contextCanceled => false
  | .foreign _ => false
  | .nilError => false

/-- `errors.As(err, &timeoutErr)` for `*TimeoutError`: does the unwrap chain
contain a `TimeoutError`? -/
def chainHasTimeoutError : GoError → Bool
  | .timeoutError _ _ => true
  | .fileMakerError _ _ _ e => chainHasTimeoutError e
  | .validationError _ _ e => chainHasTimeoutError e
  | .authenticationError _ e => chainHasTimeoutError e
  | .networkError _ e => chainHasTimeoutError e
  | .wrapped _ e => chainHasTimeoutError e
  | .contextCanceled => false
  | .foreign _ => false
  | .nilError => false

/-- `errors.As(err, &authErr)` for `*AuthenticationError`: does the unwrap
chain contain an `AuthenticationError`? -/
def chainHasAuthenticationError : GoError → Bool
  | .authenticationError _ _ => true
  | .fileMakerError _ _ _ e => chainHasAuthenticationError e
  | .validationError _ _ e => chainHasAuthenticationError e
  | .networkError _ e => chainHasAuthenticationError e
  | .timeoutError _ e => chainHasAuthenticationError e
  | .wrapped _ e => chainHasAuthenticationError e
  | .contextCanceled => false
  | .foreign _ => false
  | .nilError => false

end GoError

/-- `IsNetworkError` from `errors.go`. -/
def IsNetworkError : Option GoError → Bool
  | none => false
  | some e => e.chainHasNetworkError

/-- `IsTimeoutError` from `errors.go`. -/
def IsTimeoutError : Option GoError → Bool
  | none => false
  | some e => e.chainHasTimeoutError

/-- `IsAuthenticationError` from `errors.go`. -/
def IsAuthenticationError : Option GoError → Bool
  | none => false
  | some e => e.chainHasAuthenticationError

/-- `IsRetryable` from `errors.go`: FileMaker codes "952"/"953" or HTTP
status 429/500/502/503/504 for a `FileMakerError` found in the chain;
otherwise network and timeout errors are retryable. -/
def IsRetryable (err : Option GoError) : Bool :=
  match err with
  | none => false
  | some e =>
    match e.asFileMakerError with
    | some (.fileMakerError code _ httpStatus _) =>
      if code = "952" then true
      else if code = "953" then true
      else if httpStatus = 429 then true
      else if httpStatus = 500 then true
      else if httpStatus = 502 then true
      else if httpStatus = 503 then true
      else if httpStatus = 504 then true
      else false
    | _ => IsNetworkError (some e) || IsTimeoutError (some e)

/-- `IsAuthError` from `errors.go`: an `AuthenticationError`, or a
`FileMakerError` with code "212"/"214"/"952" or HTTP status 401/403. -/
def IsAuthError (err : Option GoError) : Bool :=
  if IsAuthenticationError err then true
  else
    match err with
    | none => false
    | some e =>
      match e.asFileMakerError with
      | some (.fileMakerError code _ httpStatus _) =>
        if code = "212" then true
        else if code = "214" then true
        else if code = "952" then true
        else if httpStatus = 401 ∨ httpStatus = 403 then true
        else false
      | _ => false

/-! ## Response envelope and parsing (`search-data.go`, `errors.go`, `client.go`) -/

/-- One element of the envelope's `messages` array (`search-data.go`). -/
structure Message where
  code : String
  message : String
deriving DecidableEq, Repr

/-- The `response` object of the envelope; only the `token` field is read by
the code modelled here (`search-data.go`, other fields omitted). -/
structure Response where
  token : String
deriving DecidableEq, Repr

/-- The decoded JSON envelope (`search-data.go`). -/
structure ResponseData where
  response : Response
  messages : List Message
deriving DecidableEq, Repr

/-- `http.StatusText` from Go's `net/http`, restricted to the status codes
exercised in this development; unknown codes map to `""` as in Go. -/
def statusText : Int → String
  | 400 => "Bad Request"
  | 401 => "Unauthorized"
  | 403 => "Forbidden"
  | 404 => "Not Found"
  | 429 => "Too Many Requests"
  | 500 => "Internal Server Error"
  | 502 => "Bad Gateway"
  | 503 => "Service Unavailable"
  | 504 => "Gateway Timeout"
  | _ => ""

/-- `ParseFileMakerError` from `errors.go`: build a `FileMakerError` from the
first envelope message; code "0" means success (nil error). -/
def ParseFileMakerError (response : Option ResponseData) (httpStatus : Int) : Option GoError :=
  match response with
  | none => some (.fileMakerError "" "no response data" httpStatus .nilError)
  | some r =>
    match r.messages with
    | [] => some (.fileMakerError "" "unknown error" httpStatus .nilError)
    | msg :: _ =>
      if msg.code = "0" then none
      else some (.fileMakerError msg.code msg.message httpStatus .nilError)

/-- The outcome of reading and decoding an HTTP response body in
`Client.parseResponse`: `io.ReadAll` may fail, `json.Unmarshal` may fail,
or a decoded envelope is produced. -/
inductive BodyOutcome where
  | readFailure (message : String)
  | decodeFailure (message : String)
  | envelope (rd : ResponseData)
deriving DecidableEq, Repr

/-- `Client.parseResponse` from `client.go`: read the body (failure becomes a
`NetworkError`), unmarshal (failure becomes a `fmt.Errorf` wrapper), then
run `ParseFileMakerError` when messages are present, and finally flag any
HTTP status ≥ 400 as a `FileMakerError` keyed off the status text. -/
def parseResponse (statusCode : Int) (body : BodyOutcome) :
    Option ResponseData × Option GoError :=
  match body with
  | .readFailure m =>
    (none, some (.networkError "failed to read response body" (.foreign m)))
  | .decodeFailure m =>
    (none, some (.wrapped "failed to unmarshal response" (.foreign m)))
  | .envelope rd =>
    if rd.messages.length > 0 then
      match ParseFileMakerError (some rd) statusCode with
      | some fmErr => (some rd, some fmErr)
      | none =>
        if statusCode ≥ 400 then
          (some rd, some (.fileMakerError "" (statusText statusCode) statusCode .nilError))
        else
          (some rd, none)
    else
      if statusCode ≥ 400 then
        (some rd, some (.fileMakerError "" (statusText statusCode) statusCode .nilError))
      else
        (some rd, none)

/-- The result of one `Client.performRequest` round trip as seen by the
closure inside `executeQuery`: either no HTTP response together with an
error, or an HTTP response (status plus body outcome); the degenerate
`(nil, nil)` pair is also representable. -/
inductive TransportResult where
  | failure (err : GoError)
  | success (statusCode : Int) (body : BodyOutcome)
  | noResponseNoError
deriving DecidableEq, Repr

/-- The body of the closure `executeQuery` hands to `executeWithRetry`
(`client.go` lines 93-109): a nil response with an error is wrapped by
`fmt.Errorf("failed to perform request: %w", err)`; a response is parsed by
`parseResponse`; the pair's first component is the `responseData` assigned
in this attempt (`none` when the attempt does not assign it). -/
def executeQueryAttempt (tr : TransportResult) : Option ResponseData × Option GoError :=
  match tr with
  | .failure err => (none, some (.wrapped "failed to perform request" err))
  | .success statusCode body => parseResponse statusCode body
  | .noResponseNoError => (none, none)

/-! ## Retry engine (`RetryConfig` and its methods) -/

/-- `RetryConfig` from the retry source file. Durations are nanosecond
counts (`time.Duration` is an `int64`); the `OnRetry` callback is modelled
by recording its invocations in the execution trace. -/
structure RetryConfig where
  maxRetries : Int
  minWaitTime : Int
  maxWaitTime : Int
  enableJitter : Bool
  retryableStatusCodes : List Int
deriving DecidableEq, Repr

/-- `DefaultRetryConfig`: 3 retries, 1s min wait, 30s max wait, jitter on. -/
def DefaultRetryConfig : RetryConfig :=
  { maxRetries := 3
    minWaitTime := 1000000000
    maxWaitTime := 30000000000
    enableJitter := true
    retryableStatusCodes := [429, 500, 502, 503, 504] }

/-- `RetryConfig.shouldRetry`: nil is never retried, otherwise defer to
`IsRetryable`. (The receiver is unused, as in the source.) -/
def RetryConfig.shouldRetry (_rc : RetryConfig) (err : Option GoError) : Bool :=
  match err with
  | none => false
  | some _ => IsRetryable err

/-- Truncation toward zero of a rational, the semantics of Go's
float-to-integer conversion `time.Duration(f)`. -/
def ratTrunc (q : ℚ) : Int :=
  if 0 ≤ q then ⌊q⌋ else ⌈q⌉

/-- `RetryConfig.calculateBackoff`: exponential backoff
`minWaitTime * 2^attempt` capped at `maxWaitTime`, then — when jitter is
enabled — increased by `trunc(r * backoff * 0.25)` where `r` is the value
drawn from `rand.Float64()` (a float in `[0, 1)`). The float64 arithmetic
of the source is modelled exactly over `ℚ`. -/
def RetryConfig.calculateBackoff (rc : RetryConfig) (attempt : Nat) (r : ℚ) : Int :=
  let backoff : Int := rc.minWaitTime * 2 ^ attempt
  let backoff : Int := if backoff > rc.maxWaitTime then rc.maxWaitTime else backoff
  if rc.enableJitter then
    backoff + ratTrunc (r * (backoff : ℚ) * (1 / 4))
  else
    backoff

/-- Observable trace of one `executeWithRetry` run: the returned error, how
often the operation was invoked, the arguments of every `OnRetry` callback
invocation (in order), and the backoff waits that were entered and
completed (in order). -/
structure RetryTrace where
  result : Option GoError
  calls : Nat
  onRetryCalls : List (Nat × GoError)
  sleeps : List Int
deriving DecidableEq, Repr

/-- The loop of `RetryConfig.executeWithRetry`, one recursive step per
iteration. `attempt` is the loop variable, `rem` the number of loop
iterations still permitted by the loop bound `attempt ≤ maxRetries`
(so the loop exit corresponds to `rem = 0`), `lastErr` the accumulator.
The run is driven by the environment: `fn i` is the operation's result on
its `i`-th invocation, `ctxDone i` tells whether the context is observed
as cancelled at the check opening iteration `i`, `sleepCancel i` whether a
cancellation fires during the backoff wait of iteration `i`, and `rand i`
the jitter draw of iteration `i`. -/
def runRetryAux (rc : RetryConfig) (fn : Nat → Option GoError)
    (ctxDone sleepCancel : Nat → Bool) (rand : Nat → ℚ) :
    Nat → Nat → Option GoError → RetryTrace
  | _, 0, lastErr => ⟨lastErr, 0, [], []⟩
  | attempt, rem + 1, _ =>
    if ctxDone attempt then
      ⟨some .contextCanceled, 0, [], []⟩
    else
      match fn attempt with
      | none => ⟨none, 1, [], []⟩
      | some e =>
        if ¬ rc.shouldRetry (some e) then
          ⟨some e, 1, [], []⟩
        else if (attempt : Int) ≥ rc.maxRetries then
          ⟨some e, 1, [], []⟩
        else
          let backoffTime := rc.calculateBackoff attempt (rand attempt)
          if sleepCancel attempt then
            ⟨some .contextCanceled, 1, [(attempt + 1, e)], []⟩
          else
            let rest := runRetryAux rc fn ctxDone sleepCancel rand (attempt + 1) rem (some e)
            ⟨rest.result, rest.calls + 1, (attempt + 1, e) :: rest.onRetryCalls,
              backoffTime :: rest.sleeps⟩

/-- `RetryConfig.executeWithRetry`: run the loop
`for attempt := 0; attempt <= maxRetries; attempt++` from attempt 0 with
`lastErr = nil`. -/
def RetryConfig.executeWithRetry (rc : RetryConfig) (fn : Nat → Option GoError)
    (ctxDone sleepCancel : Nat → Bool) (rand : Nat → ℚ) : RetryTrace :=
  runRetryAux rc fn ctxDone sleepCancel rand 0 (rc.maxRetries + 1).toNat none

/-- `Client.executeQuery` from `client.go`, viewed through its retry trace:
the closure built over `performRequest` (see `executeQueryAttempt`) is run
under `executeWithRetry`; `transport i` is the transport outcome of the
`i`-th attempt. -/
def executeQuery (rc : RetryConfig) (transport : Nat → TransportResult)
    (ctxDone sleepCancel : Nat → Bool) (rand : Nat → ℚ) : RetryTrace :=
  rc.executeWithRetry (fun i => (executeQueryAttempt (transport i)).2)
    ctxDone sleepCancel rand

/-! ## Session bracket (`withAuth` in the record service, `Do` in the search
service) -/

/-- The session environment a bracketed operation runs against:
`connect` is the outcome of the session-creation call
(`ConnectWithContext` / `CreateSession`), abstracted as either a failure
error or the successful auth envelope; `disconnect` is the outcome of
`DisconnectWithContext` for a given token (its value is discarded by the
bracket). -/
structure SessionEnv where
  connect : Except GoError ResponseData
  disconnect : String → Except GoError ResponseData

/-- Observable trace of one bracketed operation: the tokens the wrapped
function was invoked with, the tokens a disconnect was attempted for, and
the returned pair. -/
structure SessionTrace where
  fnCalls : List String
  disconnects : List String
  result : Option ResponseData × Option GoError

/-- `recordService.withAuth`: create a session; on failure return the error
with the function never invoked; on success invoke `fn` with the token,
and (via `defer`) attempt exactly one disconnect whose outcome is
discarded, returning `fn`'s result unchanged. -/
def withAuth (env : SessionEnv) (fn : String → Option ResponseData × Option GoError) :
    SessionTrace :=
  match env.connect with
  | .error e => ⟨[], [], (none, some e)⟩
  | .ok auth =>
    let r := fn auth.response.token
    ⟨[auth.response.token], [auth.response.token], r⟩

/-- The request options relevant to the modelled services. -/
structure PerformRequestOptions where
  method : String
  path : String
  headers : List (String × String)
deriving DecidableEq, Repr

/-- `searchService.Do` from `search-service.go`: create a session, and on
failure return the error without executing the find; on success build the
find request (POST with a Bearer header for the token) and run it through
`executeQuery` — modelled by `exec` — with one deferred disconnect whose
outcome is discarded. `findPath` is the formatted `findQueryPath`. -/
def searchServiceDo (env : SessionEnv)
    (exec : PerformRequestOptions → Option ResponseData × Option GoError)
    (findPath : String) : SessionTrace :=
  match env.connect with
  | .error e => ⟨[], [], (none, some e)⟩
  | .ok responseAuth =>
    let token := responseAuth.response.token
    let options : PerformRequestOptions :=
      { method := "POST"
        path := findPath
        headers := [("Authorization", "Bearer " ++ token)] }
    ⟨[token], [token], exec options⟩

/-! ## Helper lemmas about the retry loop -/

/-- A loop iteration whose context check sees a cancelled context returns
the cancellation error without invoking the operation. -/
theorem runRetryAux_ctxDone (rc : RetryConfig) (fn : Nat → Option GoError)
    (ctxDone sleepCancel : Nat → Bool) (rand : Nat → ℚ)
    (attempt rem : Nat) (lastErr : Option GoError)
    (hrem : 0 < rem) (h : ctxDone attempt = true) :
    runRetryAux rc fn ctxDone sleepCancel rand attempt rem lastErr =
      ⟨some .contextCanceled, 0, [], []⟩ := by
  obtain ⟨r, rfl⟩ : ∃ r, rem = r + 1 := ⟨rem - 1, by omega⟩
  simp [runRetryAux, h]

/-- A loop iteration whose operation fails with a non-retryable error
returns that error at once: one invocation, no callback, no sleep. -/
theorem runRetryAux_nonRetryable (rc : RetryConfig) (fn : Nat → Option GoError)
    (ctxDone sleepCancel : Nat → Bool) (rand : Nat → ℚ)
    (attempt rem : Nat) (lastErr : Option GoError) (e : GoError)
    (hrem : 0 < rem) (hctx : ctxDone attempt = false)
    (hfn : fn attempt = some e) (hretry : IsRetryable (some e) = false) :
    runRetryAux rc fn ctxDone sleepCancel rand attempt rem lastErr =
      ⟨some e, 1, [], []⟩ := by
  obtain ⟨r, rfl⟩ : ∃ r, rem = r + 1 := ⟨rem - 1, by omega⟩
  simp [runRetryAux, hctx, hfn, RetryConfig.shouldRetry, hretry]

/-- A run whose every invocation fails with a retryable error (under a live
context) performs every permitted iteration and returns the error of the
last invocation. -/
theorem runRetryAux_allFail (rc : RetryConfig) (fn : Nat → Option GoError)
    (ctxDone sleepCancel : Nat → Bool) (rand : Nat → ℚ)
    (hctx : ∀ i, ctxDone i = false) (hsl : ∀ i, sleepCancel i = false)
    (hfail : ∀ i, ∃ e, fn i = some e ∧ IsRetryable (some e) = true) :
    ∀ (rem attempt : Nat) (lastErr : Option GoError), 0 < rem →
      (attempt : Int) + rem = rc.maxRetries + 1 →
      (runRetryAux rc fn ctxDone sleepCancel rand attempt rem lastErr).result =
          fn (attempt + rem - 1)
        ∧ (runRetryAux rc fn ctxDone sleepCancel rand attempt rem lastErr).calls = rem := by
  intro rem
  induction rem with
  | zero => intro attempt lastErr h; omega
  | succ r ih =>
    intro attempt lastErr _ hsum
    obtain ⟨e, hfn, hretry⟩ := hfail attempt
    by_cases hr : r = 0
    · subst hr
      have hge : (attempt : Int) ≥ rc.maxRetries := by omega
      simp [runRetryAux, hctx, hfn, RetryConfig.shouldRetry, hretry, hge]
    · have hlt : ¬ ((attempt : Int) ≥ rc.maxRetries) := by omega
      have hrec := ih (attempt + 1) (some e) (by omega) (by push_cast; omega)
      have heq : attempt + 1 + r - 1 = attempt + (r + 1) - 1 := by omega
      simp only [runRetryAux, hctx attempt, hfn, RetryConfig.shouldRetry, hretry,
        Bool.false_eq_true, if_false, not_true, hlt, if_neg, hsl attempt]
      simp only [heq] at hrec
      exact ⟨hrec.1, by omega⟩

/-- A run whose invocations fail retryably up to invocation `k` and succeed
at invocation `k` (0-based, within the budget, under a live context)
performs exactly `k - attempt + 1` invocations from iteration `attempt`
and returns success. -/
theorem runRetryAux_succeedsAt (rc : RetryConfig) (fn : Nat → Option GoError)
    (ctxDone sleepCancel : Nat → Bool) (rand : Nat → ℚ) (k : Nat)
    (hctx : ∀ i, ctxDone i = false) (hsl : ∀ i, sleepCancel i = false)
    (hfail : ∀ i, i < k → ∃ e, fn i = some e ∧ IsRetryable (some e) = true)
    (hk : fn k = none) (hbudget : (k : Int) ≤ rc.maxRetries) :
    ∀ (rem attempt : Nat) (lastErr : Option GoError), attempt ≤ k →
      (attempt : Int) + rem = rc.maxRetries + 1 →
      (runRetryAux rc fn ctxDone sleepCancel rand attempt rem lastErr).result = none
        ∧ (runRetryAux rc fn ctxDone sleepCancel rand attempt rem lastErr).calls =
            k - attempt + 1 := by
  intro rem
  induction rem with
  | zero => intro attempt lastErr hak hsum; omega
  | succ r ih =>
    intro attempt lastErr hak hsum
    by_cases heq : attempt = k
    · subst heq
      simp [runRetryAux, hctx, hk]
    · obtain ⟨e, hfn, hretry⟩ := hfail attempt (by omega)
      have hlt : ¬ ((attempt : Int) ≥ rc.maxRetries) := by omega
      have hrec := ih (attempt + 1) (some e) (by omega) (by push_cast; omega)
      simp only [runRetryAux, hctx attempt, hfn, RetryConfig.shouldRetry, hretry,
        Bool.false_eq_true, if_false, not_true, hlt, if_neg, hsl attempt]
      exact ⟨hrec.1, by omega⟩

/-- A cancellation firing during the backoff wait of iteration `i` — after a
clean retryable-failure prefix — makes the run return the cancellation
error, not the operation's error, after `i - attempt + 1` invocations. -/
theorem runRetryAux_sleepCancelAt (rc : RetryConfig) (fn : Nat → Option GoError)
    (ctxDone sleepCancel : Nat → Bool) (rand : Nat → ℚ) (i : Nat) (e : GoError)
    (hpre : ∀ j, j < i → ctxDone j = false ∧ sleepCancel j = false ∧
      ∃ e', fn j = some e' ∧ IsRetryable (some e') = true)
    (hctx : ctxDone i = false) (hfn : fn i = some e)
    (hretry : IsRetryable (some e) = true) (hbudget : (i : Int) < rc.maxRetries)
    (hcancel : sleepCancel i = true) :
    ∀ (rem attempt : Nat) (lastErr : Option GoError), attempt ≤ i →
      (attempt : Int) + rem = rc.maxRetries + 1 →
      (runRetryAux rc fn ctxDone sleepCancel rand attempt rem lastErr).result =
          some .contextCanceled
        ∧ (runRetryAux rc fn ctxDone sleepCancel rand attempt rem lastErr).calls =
            i - attempt + 1 := by
  intro rem
  induction rem with
  | zero => intro attempt lastErr hai hsum; omega
  | succ r ih =>
    intro attempt lastErr hai hsum
    by_cases heq : attempt = i
    · subst heq
      have hlt : ¬ ((attempt : Int) ≥ rc.maxRetries) := by omega
      simp [runRetryAux, hctx, hfn, RetryConfig.shouldRetry, hretry, hlt, hcancel]
    · obtain ⟨hc, hs, e', hfn', hretry'⟩ := hpre attempt (by omega)
      have hlt : ¬ ((attempt : Int) ≥ rc.maxRetries) := by omega
      have hrec := ih (attempt + 1) (some e') (by omega) (by push_cast; omega)
      simp only [runRetryAux, hc, hfn', RetryConfig.shouldRetry, hretry',
        Bool.false_eq_true, if_false, not_true, hlt, if_neg, hs]
      exact ⟨hrec.1, by omega⟩

/-- Trace structure of the `OnRetry` callback invocations of a run, from any
loop iteration on: (sound) every recorded invocation `(n, e)` corresponds
to a failed invocation `n - 1` (0-based loop index `n - 1`, so the callback
received the 1-based number of the attempt that just failed) observed under
a live context, with a retryable error and budget left; (consecutive) the
attempt numbers recorded are consecutive starting at `attempt + 1`, so no
retry decision records the callback twice; (counted) the number of entered
backoff waits equals the number of callback invocations, except that a wait
aborted by cancellation leaves one final callback invocation without a
completed wait. -/
theorem runRetryAux_onRetry_trace (rc : RetryConfig) (fn : Nat → Option GoError)
    (ctxDone sleepCancel : Nat → Bool) (rand : Nat → ℚ) :
    ∀ (rem attempt : Nat) (lastErr : Option GoError),
      (∀ n e, (n, e) ∈ (runRetryAux rc fn ctxDone sleepCancel rand attempt rem lastErr).onRetryCalls →
        attempt + 1 ≤ n ∧ ctxDone (n - 1) = false ∧ fn (n - 1) = some e ∧
          IsRetryable (some e) = true ∧ ((n : Int) - 1 < rc.maxRetries))
      ∧ (runRetryAux rc fn ctxDone sleepCancel rand attempt rem lastErr).onRetryCalls.map Prod.fst =
          List.range' (attempt + 1)
            (runRetryAux rc fn ctxDone sleepCancel rand attempt rem lastErr).onRetryCalls.length
      ∧ ((runRetryAux rc fn ctxDone sleepCancel rand attempt rem lastErr).onRetryCalls.length =
            (runRetryAux rc fn ctxDone sleepCancel rand attempt rem lastErr).sleeps.length
          ∨ (runRetryAux rc fn ctxDone sleepCancel rand attempt rem lastErr).onRetryCalls.length =
            (runRetryAux rc fn ctxDone sleepCancel rand attempt rem lastErr).sleeps.length + 1) := by
  intro rem
  induction rem with
  | zero =>
    intro attempt lastErr
    exact ⟨fun n e h => absurd h (by simp [runRetryAux]), rfl, Or.inl rfl⟩
  | succ r ih =>
    intro attempt lastErr
    by_cases hc : ctxDone attempt = true
    · have hstep : runRetryAux rc fn ctxDone sleepCancel rand attempt (r + 1) lastErr =
          ⟨some .contextCanceled, 0, [], []⟩ := by
        simp [runRetryAux, hc]
      rw [hstep]
      exact ⟨fun n e h => absurd h (by simp), rfl, Or.inl rfl⟩
    · rw [Bool.not_eq_true] at hc
      rcases hfn : fn attempt with _ | e'
      · have hstep : runRetryAux rc fn ctxDone sleepCancel rand attempt (r + 1) lastErr =
            ⟨none, 1, [], []⟩ := by
          simp [runRetryAux, hc, hfn]
        rw [hstep]
        exact ⟨fun n e h => absurd h (by simp), rfl, Or.inl rfl⟩
      · by_cases hsr : IsRetryable (some e') = true
        · by_cases hmax : (attempt : Int) ≥ rc.maxRetries
          · have hstep : runRetryAux rc fn ctxDone sleepCancel rand attempt (r + 1) lastErr =
                ⟨some e', 1, [], []⟩ := by
              simp [runRetryAux, hc, hfn, RetryConfig.shouldRetry, hsr, hmax]
            rw [hstep]
            exact ⟨fun n e h => absurd h (by simp), rfl, Or.inl rfl⟩
          · by_cases hslc : sleepCancel attempt = true
            · have hstep : runRetryAux rc fn ctxDone sleepCancel rand attempt (r + 1) lastErr =
                  ⟨some .contextCanceled, 1, [(attempt + 1, e')], []⟩ := by
                simp [runRetryAux, hc, hfn, RetryConfig.shouldRetry, hsr, hmax, hslc]
              rw [hstep]
              refine ⟨fun n e h => ?_, rfl, Or.inr rfl⟩
              obtain ⟨rfl, rfl⟩ : n = attempt + 1 ∧ e = e' := by simpa using h
              exact ⟨le_refl _, by simpa using hc, by simpa using hfn, hsr, by push_cast; omega⟩
            · rw [Bool.not_eq_true] at hslc
              obtain ⟨ihMem, ihMap, ihLen⟩ := ih (attempt + 1) (some e')
              have hstep :
                  runRetryAux rc fn ctxDone sleepCancel rand attempt (r + 1) lastErr =
                    ⟨(runRetryAux rc fn ctxDone sleepCancel rand (attempt + 1) r (some e')).result,
                      (runRetryAux rc fn ctxDone sleepCancel rand (attempt + 1) r (some e')).calls + 1,
                      (attempt + 1, e') ::
                        (runRetryAux rc fn ctxDone sleepCancel rand (attempt + 1) r (some e')).onRetryCalls,
                      rc.calculateBackoff attempt (rand attempt) ::
                        (runRetryAux rc fn ctxDone sleepCancel rand (attempt + 1) r (some e')).sleeps⟩ := by
                simp [runRetryAux, hc, hfn, RetryConfig.shouldRetry, hsr, hmax, hslc]
              rw [hstep]
              refine ⟨fun n e h => ?_, ?_, ?_⟩
              · rcases List.mem_cons.mp h with h1 | h2
                · obtain ⟨rfl, rfl⟩ : n = attempt + 1 ∧ e = e' := by simpa using h1
                  exact ⟨le_refl _, by simpa using hc, by simpa using hfn, hsr,
                    by push_cast; omega⟩
                · have hm := ihMem n e h2
                  exact ⟨by omega, hm.2.1, hm.2.2.1, hm.2.2.2.1, hm.2.2.2.2⟩
              · simp only [List.map_cons, List.length_cons]
                rw [List.range'_succ]
                exact congrArg (List.cons (attempt + 1)) ihMap
              · simp only [List.length_cons]
                omega
        · have hstep : runRetryAux rc fn ctxDone sleepCancel rand attempt (r + 1) lastErr =
              ⟨some e', 1, [], []⟩ := by
            simp [runRetryAux, hc, hfn, RetryConfig.shouldRetry, hsr]
          rw [hstep]
          exact ⟨fun n e h => absurd h (by simp), rfl, Or.inl rfl⟩

/-! ## Helper lemmas about the backoff computation -/

/-- Truncation toward zero of a nonnegative rational is nonnegative. -/
theorem ratTrunc_nonneg {q : ℚ} (h : 0 ≤ q) : 0 ≤ ratTrunc q := by
  rw [ratTrunc, if_pos h]
  exact Int.le_floor.mpr (by exact_mod_cast h)

/-- Truncation toward zero of a nonnegative rational is at most the value. -/
theorem ratTrunc_le {q : ℚ} (h : 0 ≤ q) : (ratTrunc q : ℚ) ≤ q := by
  rw [ratTrunc, if_pos h]
  exact Int.floor_le q

/-- `calculateBackoff` in closed form: the pre-jitter backoff — the value
after the cap — is `min (minWaitTime * 2 ^ attempt) maxWaitTime`, and the
jitter branch adds the truncated draw. -/
theorem calculateBackoff_eq (rc : RetryConfig) (attempt : Nat) (r : ℚ) :
    rc.calculateBackoff attempt r =
      (if rc.enableJitter then
        min (rc.minWaitTime * 2 ^ attempt) rc.maxWaitTime +
          ratTrunc (r * ((min (rc.minWaitTime * 2 ^ attempt) rc.maxWaitTime : Int) : ℚ) * (1 / 4))
      else min (rc.minWaitTime * 2 ^ attempt) rc.maxWaitTime) := by
  have h : (if rc.minWaitTime * 2 ^ attempt > rc.maxWaitTime then rc.maxWaitTime
      else rc.minWaitTime * 2 ^ attempt) = min (rc.minWaitTime * 2 ^ attempt) rc.maxWaitTime := by
    rcases le_or_lt (rc.minWaitTime * 2 ^ attempt) rc.maxWaitTime with hle | hlt
    · rw [if_neg (not_lt.mpr hle), min_eq_left hle]
    · rw [if_pos hlt, min_eq_right hlt.le]
  simp only [RetryConfig.calculateBackoff]
  rw [h]

/-! ## Claims C3 and C4: bounds and exact shape of the computed backoff -/

/-- Concrete configuration refuting claim C3's upper bound: minimum and
maximum wait of 8ns with jitter enabled. -/
def c3cfg : RetryConfig :=
  { maxRetries := 0, minWaitTime := 8, maxWaitTime := 8, enableJitter := true,
    retryableStatusCodes := [] }

/-- C3 counterexample: with `MinWaitTime = MaxWaitTime = 8` and jitter
enabled, the jitter draw `r = 1/2` yields a delay of `9 > MaxWaitTime`:
the jitter is added after the cap, so the returned delay can exceed
`MaxWaitTime`, contradicting `delay ≤ MaxWaitTime` as claimed. -/
theorem claim_C3_counterexample :
    c3cfg.calculateBackoff 0 (1 / 2) = 9 ∧
      ¬ c3cfg.calculateBackoff 0 (1 / 2) ≤ c3cfg.maxWaitTime := by
  have h : c3cfg.calculateBackoff 0 (1 / 2) = 9 := by
    rw [calculateBackoff_eq]
    norm_num [c3cfg, ratTrunc]
  exact ⟨h, by rw [h]; norm_num [c3cfg]⟩

/-- C3 (amended): for every configuration with nonnegative minimum and
maximum wait and every jitter draw `r ∈ [0, 1)`, the delay returned by
`calculateBackoff` satisfies `0 ≤ delay`; it is bounded by `MaxWaitTime`
when jitter is disabled, but with jitter enabled only the weaker bound
`4 * delay ≤ 5 * MaxWaitTime` (delay at most 125% of `MaxWaitTime`)
holds, because the jitter is added after the cap. -/
theorem claim_C3 (rc : RetryConfig) (attempt : Nat) (r : ℚ)
    (hmin : 0 ≤ rc.minWaitTime) (hmax : 0 ≤ rc.maxWaitTime)
    (hr0 : 0 ≤ r) (hr1 : r < 1) :
    0 ≤ rc.calculateBackoff attempt r
    ∧ (rc.enableJitter = false → rc.calculateBackoff attempt r ≤ rc.maxWaitTime)
    ∧ 4 * rc.calculateBackoff attempt r ≤ 5 * rc.maxWaitTime := by
  have hb0 : 0 ≤ min (rc.minWaitTime * 2 ^ attempt) rc.maxWaitTime :=
    le_min (mul_nonneg hmin (pow_nonneg (by norm_num) _)) hmax
  have hbmax : min (rc.minWaitTime * 2 ^ attempt) rc.maxWaitTime ≤ rc.maxWaitTime :=
    min_le_right _ _
  rw [calculateBackoff_eq]
  by_cases hj : rc.enableJitter = true
  · simp only [hj, if_true]
    set b : Int := min (rc.minWaitTime * 2 ^ attempt) rc.maxWaitTime with hb
    have harg : 0 ≤ r * (b : ℚ) * (1 / 4) :=
      mul_nonneg (mul_nonneg hr0 (by exact_mod_cast hb0)) (by norm_num)
    have hj0 : 0 ≤ ratTrunc (r * (b : ℚ) * (1 / 4)) := ratTrunc_nonneg harg
    have hjle : (ratTrunc (r * (b : ℚ) * (1 / 4)) : ℚ) ≤ r * (b : ℚ) * (1 / 4) :=
      ratTrunc_le harg
    have hrb : r * (b : ℚ) * (1 / 4) ≤ (b : ℚ) * (1 / 4) := by
      have : r * (b : ℚ) ≤ 1 * (b : ℚ) :=
        mul_le_mul_of_nonneg_right hr1.le (by exact_mod_cast hb0)
      nlinarith
    have h4 : 4 * ratTrunc (r * (b : ℚ) * (1 / 4)) ≤ b := by
      have : (4 * ratTrunc (r * (b : ℚ) * (1 / 4)) : ℚ) ≤ (b : ℚ) := by
        nlinarith
      exact_mod_cast this
    refine ⟨by omega, fun hf => absurd hf (by decide), by omega⟩
  · simp only [Bool.not_eq_true] at hj
    simp only [hj, Bool.false_eq_true, if_false]
    exact ⟨hb0, fun _ => hbmax, by omega⟩

/-- Apply the amended C3 at the default configuration, attempt 2,
jitter draw 1/3. -/
theorem claim_C3_witness :
    0 ≤ DefaultRetryConfig.calculateBackoff 2 (1 / 3)
    ∧ (DefaultRetryConfig.enableJitter = false →
        DefaultRetryConfig.calculateBackoff 2 (1 / 3) ≤ DefaultRetryConfig.maxWaitTime)
    ∧ 4 * DefaultRetryConfig.calculateBackoff 2 (1 / 3) ≤ 5 * DefaultRetryConfig.maxWaitTime :=
  claim_C3 DefaultRetryConfig 2 (1 / 3) (by norm_num [DefaultRetryConfig])
    (by norm_num [DefaultRetryConfig]) (by norm_num) (by norm_num)

/-- Concrete configuration refuting claim C4's jitter interval: zero minimum
wait with jitter enabled gives a pre-jitter base of 0, and the half-open
interval `[0, 0)` is empty. -/
def c4cfg : RetryConfig :=
  { maxRetries := 0, minWaitTime := 0, maxWaitTime := 30, enableJitter := true,
    retryableStatusCodes := [] }

/-- C4 counterexample: with `MinWaitTime = 0` and jitter enabled the
pre-jitter base is 0 and the returned delay is 0, which does not lie in
the claimed half-open interval `[base, base * 1.25) = [0, 0)`. -/
theorem claim_C4_counterexample :
    c4cfg.calculateBackoff 0 0 = 0 ∧
      min (c4cfg.minWaitTime * 2 ^ 0) c4cfg.maxWaitTime = 0 ∧
      ¬ ((c4cfg.calculateBackoff 0 0 : ℚ) <
          5 / 4 * ((min (c4cfg.minWaitTime * 2 ^ 0) c4cfg.maxWaitTime : Int) : ℚ)) := by
  have h : c4cfg.calculateBackoff 0 0 = 0 := by
    rw [calculateBackoff_eq]
    norm_num [c4cfg, ratTrunc]
  refine ⟨h, by norm_num [c4cfg], ?_⟩
  rw [h]
  norm_num [c4cfg]

/-- C4 (amended): the pre-jitter delay equals
`min (MinWaitTime * 2 ^ attempt, MaxWaitTime)` exactly (in the exact
rational model of the source's float64 arithmetic); with jitter enabled
and a draw `r ∈ [0, 1)`, jitter only adds (never subtracts) whenever the
base is nonnegative, and for a positive base the returned delay lies in
`[base, base * 1.25)`; for a zero base the returned delay is exactly 0
(the claimed half-open interval is empty there). -/
theorem claim_C4 (rc : RetryConfig) (attempt : Nat) (r : ℚ) (hr0 : 0 ≤ r) (hr1 : r < 1) :
    ({rc with enableJitter := false} : RetryConfig).calculateBackoff attempt r =
        min (rc.minWaitTime * 2 ^ attempt) rc.maxWaitTime
    ∧ (rc.enableJitter = true → 0 ≤ min (rc.minWaitTime * 2 ^ attempt) rc.maxWaitTime →
        min (rc.minWaitTime * 2 ^ attempt) rc.maxWaitTime ≤ rc.calculateBackoff attempt r)
    ∧ (rc.enableJitter = true → 0 < min (rc.minWaitTime * 2 ^ attempt) rc.maxWaitTime →
        (rc.calculateBackoff attempt r : ℚ) <
          5 / 4 * ((min (rc.minWaitTime * 2 ^ attempt) rc.maxWaitTime : Int) : ℚ))
    ∧ (rc.enableJitter = true → min (rc.minWaitTime * 2 ^ attempt) rc.maxWaitTime = 0 →
        rc.calculateBackoff attempt r = 0) := by
  refine ⟨?_, ?_, ?_, ?_⟩
  · rw [calculateBackoff_eq]
    simp
  · intro hj hb0
    rw [calculateBackoff_eq, if_pos hj]
    have harg : 0 ≤ r * ((min (rc.minWaitTime * 2 ^ attempt) rc.maxWaitTime : Int) : ℚ) * (1 / 4) :=
      mul_nonneg (mul_nonneg hr0 (by exact_mod_cast hb0)) (by norm_num)
    have := ratTrunc_nonneg harg
    omega
  · intro hj hbpos
    rw [calculateBackoff_eq, if_pos hj]
    set b : Int := min (rc.minWaitTime * 2 ^ attempt) rc.maxWaitTime with hb
    have hbq : (0 : ℚ) < (b : ℚ) := by exact_mod_cast hbpos
    have harg : 0 ≤ r * (b : ℚ) * (1 / 4) :=
      mul_nonneg (mul_nonneg hr0 hbq.le) (by norm_num)
    have hjle : (ratTrunc (r * (b : ℚ) * (1 / 4)) : ℚ) ≤ r * (b : ℚ) * (1 / 4) :=
      ratTrunc_le harg
    have hstrict : r * (b : ℚ) * (1 / 4) < (b : ℚ) * (1 / 4) := by
      have : r * (b : ℚ) < 1 * (b : ℚ) := mul_lt_mul_of_pos_right hr1 hbq
      nlinarith
    push_cast
    nlinarith
  · intro hj hb0
    rw [calculateBackoff_eq, if_pos hj, hb0]
    norm_num [ratTrunc]

/-- Apply the amended C4 at the default configuration (jitter enabled,
positive base), attempt 1, jitter draw 1/3. -/
theorem claim_C4_witness :
    ({DefaultRetryConfig with enableJitter := false} : RetryConfig).calculateBackoff 1 (1 / 3) =
        min (DefaultRetryConfig.minWaitTime * 2 ^ 1) DefaultRetryConfig.maxWaitTime
    ∧ min (DefaultRetryConfig.minWaitTime * 2 ^ 1) DefaultRetryConfig.maxWaitTime ≤
        DefaultRetryConfig.calculateBackoff 1 (1 / 3)
    ∧ (DefaultRetryConfig.calculateBackoff 1 (1 / 3) : ℚ) <
        5 / 4 * ((min (DefaultRetryConfig.minWaitTime * 2 ^ 1) DefaultRetryConfig.maxWaitTime :
          Int) : ℚ) := by
  have h := claim_C4 DefaultRetryConfig 1 (1 / 3) (by norm_num) (by norm_num)
  exact ⟨h.1, h.2.1 rfl (by norm_num [DefaultRetryConfig]),
    h.2.2.1 rfl (by norm_num [DefaultRetryConfig])⟩

/-! ## Claim C1: handling of transport failures in `executeQuery` -/

/-- Wrapping by `fmt.Errorf("...: %w", err)` is transparent to
`IsRetryable`: `errors.As` searches the unwrap chain. -/
theorem IsRetryable_wrapped (m : String) (e : GoError) :
    IsRetryable (some (.wrapped m e)) = IsRetryable (some e) := by
  simp only [IsRetryable, GoError.asFileMakerError, IsNetworkError, IsTimeoutError,
    GoError.chainHasNetworkError, GoError.chainHasTimeoutError]

/-- C1 counterexample: a transport failure (nil response, non-nil error,
here a foreign transport error such as `*url.Error`) is not wrapped as a
`NetworkError` by `executeQuery` — the wrapper is a generic `fmt.Errorf`
wrapper — and the resulting error is not retryable, so with the default
configuration (3 retries) the operation is invoked exactly once instead
of being retried. -/
theorem claim_C1_counterexample :
    IsNetworkError ((executeQueryAttempt (.failure (.foreign "connection refused"))).2) = false
    ∧ IsRetryable ((executeQueryAttempt (.failure (.foreign "connection refused"))).2) = false
    ∧ (executeQuery DefaultRetryConfig (fun _ => .failure (.foreign "connection refused"))
        (fun _ => false) (fun _ => false) (fun _ => 0)).calls = 1 := by
  decide

/-- C1 (amended): a transport failure (nil response and non-nil error) is
wrapped by `executeQuery` with the generic wrapper
`fmt.Errorf("failed to perform request: %w", err)` — not as a
`NetworkError` — before being handed to the Retry Engine; since the
wrapper is transparent to `IsRetryable`, such a failure is retried
exactly when the underlying transport error already classifies as
retryable, and in particular a failure whose underlying error is not a
taxonomy-retryable error is not retried at all (one invocation). -/
theorem claim_C1 (e : GoError) :
    (executeQueryAttempt (.failure e)).2 = some (.wrapped "failed to perform request" e)
    ∧ IsRetryable (some (.wrapped "failed to perform request" e)) = IsRetryable (some e)
    ∧ ∀ rc : RetryConfig, 0 ≤ rc.maxRetries → IsRetryable (some e) = false →
        (executeQuery rc (fun _ => .failure e) (fun _ => false) (fun _ => false)
          (fun _ => 0)).calls = 1 := by
  refine ⟨rfl, IsRetryable_wrapped _ e, fun rc hrc hret => ?_⟩
  have h := runRetryAux_nonRetryable rc
    (fun i => (executeQueryAttempt ((fun _ : Nat => TransportResult.failure e) i)).2)
    (fun _ => false) (fun _ => false) (fun _ => 0) 0 (rc.maxRetries + 1).toNat none
    (.wrapped "failed to perform request" e) (by omega) rfl rfl
    (by rw [IsRetryable_wrapped]; exact hret)
  unfold executeQuery RetryConfig.executeWithRetry
  rw [h]

/-- Apply the amended C1 at a foreign transport error and the default
configuration. -/
theorem claim_C1_witness :
    (executeQueryAttempt (.failure (.foreign "dial tcp: timeout"))).2 =
        some (.wrapped "failed to perform request" (.foreign "dial tcp: timeout"))
    ∧ (executeQuery DefaultRetryConfig (fun _ => .failure (.foreign "dial tcp: timeout"))
        (fun _ => false) (fun _ => false) (fun _ => 0)).calls = 1 :=
  ⟨(claim_C1 (.foreign "dial tcp: timeout")).1,
    (claim_C1 (.foreign "dial tcp: timeout")).2.2 DefaultRetryConfig (by decide) (by decide)⟩

/-! ## Claim C2: envelope parsing versus HTTP status -/

/-- C2 counterexample: an envelope whose first message has code "0" under
HTTP status 500 does not parse as success — `parseResponse` falls through
to the HTTP-status check and returns a `FileMakerError` keyed off the
status text. -/
theorem claim_C2_counterexample :
    (parseResponse 500 (.envelope ⟨⟨""⟩, [⟨"0", "OK"⟩]⟩)).2 ≠ none
    ∧ (parseResponse 500 (.envelope ⟨⟨""⟩, [⟨"0", "OK"⟩]⟩)).2 =
        some (.fileMakerError "" "Internal Server Error" 500 .nilError) := by
  decide

/-- C2 (amended): a first envelope message with code "0" makes
`ParseFileMakerError` itself report success regardless of the HTTP
status, but `parseResponse` yields a nil error only when the HTTP status
is below 400; with status ≥ 400 it still returns a `FileMakerError`
carrying that status and keyed off the status text — the same error it
returns when the envelope has no messages at all. -/
theorem claim_C2 (statusCode : Int) (rd : ResponseData) (msg : Message) (rest : List Message) :
    (rd.messages = msg :: rest → msg.code = "0" →
      ParseFileMakerError (some rd) statusCode = none)
    ∧ (rd.messages = msg :: rest → msg.code = "0" → statusCode < 400 →
      (parseResponse statusCode (.envelope rd)).2 = none)
    ∧ (rd.messages = msg :: rest → msg.code = "0" → 400 ≤ statusCode →
      (parseResponse statusCode (.envelope rd)).2 =
        some (.fileMakerError "" (statusText statusCode) statusCode .nilError))
    ∧ (rd.messages = [] → 400 ≤ statusCode →
      (parseResponse statusCode (.envelope rd)).2 =
        some (.fileMakerError "" (statusText statusCode) statusCode .nilError)) := by
  refine ⟨?_, ?_, ?_, ?_⟩
  · intro hm hc
    simp [ParseFileMakerError, hm, hc]
  · intro hm hc hlt
    simp [parseResponse, ParseFileMakerError, hm, hc, show ¬ (statusCode ≥ 400) by omega]
  · intro hm hc hge
    simp [parseResponse, ParseFileMakerError, hm, hc, show statusCode ≥ 400 by omega]
  · intro hm hge
    simp [parseResponse, hm, show statusCode ≥ 400 by omega]

/-- Apply the amended C2: code "0" with HTTP 200 parses as success; code
"0" with HTTP 500 and an empty envelope with HTTP 500 both produce the
status-text `FileMakerError`. -/
theorem claim_C2_witness :
    (parseResponse 200 (.envelope ⟨⟨""⟩, [⟨"0", "OK"⟩]⟩)).2 = none
    ∧ (parseResponse 500 (.envelope ⟨⟨""⟩, [⟨"0", "OK"⟩]⟩)).2 =
        some (.fileMakerError "" (statusText 500) 500 .nilError)
    ∧ (parseResponse 500 (.envelope ⟨⟨""⟩, []⟩)).2 =
        some (.fileMakerError "" (statusText 500) 500 .nilError) :=
  ⟨(claim_C2 200 ⟨⟨""⟩, [⟨"0", "OK"⟩]⟩ ⟨"0", "OK"⟩ []).2.1 rfl rfl (by norm_num),
    (claim_C2 500 ⟨⟨""⟩, [⟨"0", "OK"⟩]⟩ ⟨"0", "OK"⟩ []).2.2.1 rfl rfl (by norm_num),
    (claim_C2 500 ⟨⟨""⟩, []⟩ ⟨"0", "OK"⟩ []).2.2.2 rfl (by norm_num)⟩

/-! ## Claim C6: the retryability predicate -/

/-- C6 counterexample: a `NetworkError` wrapping a `FileMakerError` (code
"100", HTTP 200) is classified not retryable — `IsRetryable` consults the
`FileMakerError` found anywhere in the unwrap chain before the
network-error rule — refuting "returns true for every NetworkError". -/
theorem claim_C6_counterexample :
    IsRetryable (some (.networkError "net down" (.fileMakerError "100" "m" 200 .nilError))) =
      false := by
  decide

/-- C6 (amended): `IsRetryable` returns false for nil; it returns true for
every `NetworkError` and every `TimeoutError` whose unwrap chain contains
no `FileMakerError` (the `FileMakerError` branch is consulted first); for
a `FileMakerError` it returns true exactly when the code is "952" or
"953" (regardless of HTTP status) or the HTTP status is one of 429, 500,
502, 503, 504; code "952" is simultaneously classified auth-related by
`IsAuthError`; and the Retry Engine's `shouldRetry` consults exactly this
classification on non-nil errors. -/
theorem claim_C6 :
    IsRetryable none = false
    ∧ (∀ (m : String) (inner : GoError), inner.asFileMakerError = none →
        IsRetryable (some (.networkError m inner)) = true)
    ∧ (∀ (m : String) (inner : GoError), inner.asFileMakerError = none →
        IsRetryable (some (.timeoutError m inner)) = true)
    ∧ (∀ (code msg : String) (status : Int) (inner : GoError),
        IsRetryable (some (.fileMakerError code msg status inner)) = true ↔
          code = "952" ∨ code = "953" ∨ status = 429 ∨ status = 500 ∨ status = 502 ∨
            status = 503 ∨ status = 504)
    ∧ (∀ (msg : String) (status : Int) (inner : GoError),
        IsAuthError (some (.fileMakerError "952" msg status inner)) = true)
    ∧ (∀ (rc : RetryConfig) (e : GoError),
        rc.shouldRetry (some e) = IsRetryable (some e))
    ∧ (∀ rc : RetryConfig, rc.shouldRetry none = false) := by
  refine ⟨rfl, ?_, ?_, ?_, ?_, fun rc e => rfl, fun rc => rfl⟩
  · intro m inner h
    simp [IsRetryable, GoError.asFileMakerError, h, IsNetworkError,
      GoError.chainHasNetworkError]
  · intro m inner h
    simp [IsRetryable, GoError.asFileMakerError, h, IsNetworkError, IsTimeoutError,
      GoError.chainHasTimeoutError]
  · intro code msg status inner
    simp only [IsRetryable, GoError.asFileMakerError]
    split_ifs with h1 h2 h3 h4 h5 h6 h7 <;> simp_all
  · intro msg status inner
    by_cases hA : IsAuthenticationError (some (.fileMakerError "952" msg status inner)) = true
    · simp [IsAuthError, hA]
    · simp only [IsAuthError, GoError.asFileMakerError]
      rw [if_neg (by simpa using hA), if_neg (by decide), if_neg (by decide)]
      simp

/-- Apply the amended C6 at concrete errors: a plain `NetworkError` is
retryable; code "952" with HTTP 503 is retryable and auth-related. -/
theorem claim_C6_witness :
    IsRetryable (some (.networkError "connection reset" .nilError)) = true
    ∧ IsAuthError (some (.fileMakerError "952" "host unavailable" 503 .nilError)) = true
    ∧ (IsRetryable (some (.fileMakerError "952" "host unavailable" 503 .nilError)) = true ↔
        ("952" : String) = "952" ∨ ("952" : String) = "953" ∨ (503 : Int) = 429 ∨
          (503 : Int) = 500 ∨ (503 : Int) = 502 ∨ (503 : Int) = 503 ∨ (503 : Int) = 504) :=
  ⟨claim_C6.2.1 "connection reset" .nilError (by decide),
    claim_C6.2.2.2.2.1 "host unavailable" 503 .nilError,
    claim_C6.2.2.2.1 "952" "host unavailable" 503 .nilError⟩

/-! ## Claim C9: the session bracket -/

/-- C9 (confirmed): for both `withAuth` and the search service's `Do`, a
failed session creation returns the creation error with the wrapped
function never invoked and no disconnect attempted; a successful
session creation leads to exactly one invocation of the wrapped function
with the session token, exactly one disconnect attempt for that token
after it, and the wrapped function's result returned unchanged —
the disconnect outcome never replaces it. -/
theorem claim_C9 (env : SessionEnv) (fn : String → Option ResponseData × Option GoError)
    (exec : PerformRequestOptions → Option ResponseData × Option GoError) (findPath : String) :
    (∀ e, env.connect = .error e →
      withAuth env fn = ⟨[], [], (none, some e)⟩
      ∧ searchServiceDo env exec findPath = ⟨[], [], (none, some e)⟩)
    ∧ (∀ auth, env.connect = .ok auth →
        (withAuth env fn).fnCalls = [auth.response.token]
        ∧ (withAuth env fn).disconnects = [auth.response.token]
        ∧ (withAuth env fn).result = fn auth.response.token
        ∧ (searchServiceDo env exec findPath).disconnects = [auth.response.token]
        ∧ (searchServiceDo env exec findPath).result =
            exec { method := "POST", path := findPath,
                   headers := [("Authorization", "Bearer " ++ auth.response.token)] }) := by
  constructor
  · intro e h
    constructor <;> simp [withAuth, searchServiceDo, h]
  · intro auth h
    refine ⟨?_, ?_, ?_, ?_, ?_⟩ <;> simp [withAuth, searchServiceDo, h]

/-- Apply C9 at a concrete environment: successful creation with token
"tok", and failing creation. -/
theorem claim_C9_witness :
    (withAuth ⟨.ok ⟨⟨"tok"⟩, []⟩, fun _ => .ok ⟨⟨""⟩, []⟩⟩ (fun _ => (none, none))).fnCalls =
        ["tok"]
    ∧ (withAuth ⟨.ok ⟨⟨"tok"⟩, []⟩, fun _ => .ok ⟨⟨""⟩, []⟩⟩ (fun _ => (none, none))).disconnects =
        ["tok"]
    ∧ (withAuth ⟨.error (.networkError "down" .nilError), fun _ => .ok ⟨⟨""⟩, []⟩⟩
        (fun _ => (none, none))) =
        ⟨[], [], (none, some (.networkError "down" .nilError))⟩ :=
  ⟨((claim_C9 ⟨.ok ⟨⟨"tok"⟩, []⟩, fun _ => .ok ⟨⟨""⟩, []⟩⟩ (fun _ => (none, none))
      (fun _ => (none, none)) "p").2 ⟨⟨"tok"⟩, []⟩ rfl).1,
    ((claim_C9 ⟨.ok ⟨⟨"tok"⟩, []⟩, fun _ => .ok ⟨⟨""⟩, []⟩⟩ (fun _ => (none, none))
      (fun _ => (none, none)) "p").2 ⟨⟨"tok"⟩, []⟩ rfl).2.1,
    ((claim_C9 ⟨.error (.networkError "down" .nilError), fun _ => .ok ⟨⟨""⟩, []⟩⟩
      (fun _ => (none, none)) (fun _ => (none, none)) "p").1
        (.networkError "down" .nilError) rfl).1⟩

/-! ## Claims C5, C7, C8, C10: the retry engine's behaviour -/

/-- C5 (confirmed): with `MaxRetries = N ≥ 0`, a live context, and an
operation failing with a retryable error on every invocation,
`executeWithRetry` invokes the operation exactly `N + 1` times and
returns the error of the last invocation unchanged; an operation that
succeeds on invocation `k + 1 ≤ N + 1` (after `k` retryable failures) is
invoked exactly `k + 1` times with success returned immediately. -/
theorem claim_C5 (rc : RetryConfig) (fn : Nat → Option GoError) (rand : Nat → ℚ) (N : Nat)
    (hN : (N : Int) = rc.maxRetries) :
    ((∀ i, ∃ e, fn i = some e ∧ IsRetryable (some e) = true) →
      (rc.executeWithRetry fn (fun _ => false) (fun _ => false) rand).calls = N + 1
      ∧ (rc.executeWithRetry fn (fun _ => false) (fun _ => false) rand).result = fn N)
    ∧ ∀ k : Nat, k ≤ N → (∀ i, i < k → ∃ e, fn i = some e ∧ IsRetryable (some e) = true) →
        fn k = none →
        (rc.executeWithRetry fn (fun _ => false) (fun _ => false) rand).calls = k + 1
        ∧ (rc.executeWithRetry fn (fun _ => false) (fun _ => false) rand).result = none := by
  have hrem : (rc.maxRetries + 1).toNat = N + 1 := by omega
  constructor
  · intro hfail
    have h := runRetryAux_allFail rc fn (fun _ => false) (fun _ => false) rand
      (fun _ => rfl) (fun _ => rfl) hfail (N + 1) 0 none (by omega) (by push_cast; omega)
    unfold RetryConfig.executeWithRetry
    rw [hrem]
    exact ⟨h.2, by simpa using h.1⟩
  · intro k hk hfail hsucc
    have h := runRetryAux_succeedsAt rc fn (fun _ => false) (fun _ => false) rand k
      (fun _ => rfl) (fun _ => rfl) hfail hsucc (by omega)
      (N + 1) 0 none (by omega) (by push_cast; omega)
    unfold RetryConfig.executeWithRetry
    rw [hrem]
    exact ⟨by simpa using h.2, h.1⟩

/-- Apply C5 at the default configuration (`MaxRetries = 3`) and an
always-failing retryable operation: 4 invocations, the network error
returned unchanged. -/
theorem claim_C5_witness :
    (DefaultRetryConfig.executeWithRetry (fun _ => some (.networkError "conn" .nilError))
        (fun _ => false) (fun _ => false) (fun _ => 0)).calls = 3 + 1
    ∧ (DefaultRetryConfig.executeWithRetry (fun _ => some (.networkError "conn" .nilError))
        (fun _ => false) (fun _ => false) (fun _ => 0)).result =
        (fun _ : Nat => some (GoError.networkError "conn" .nilError)) 3 :=
  (claim_C5 DefaultRetryConfig (fun _ => some (.networkError "conn" .nilError))
      (fun _ => 0) 3 (by decide)).1
    (fun _ => ⟨.networkError "conn" .nilError, rfl, by decide⟩)

/-- C7 (confirmed): whatever the (nonnegative) `MaxRetries`, an operation
whose first invocation fails with a non-retryable error is invoked
exactly once; the error is returned unchanged, no backoff wait is entered
and no retry callback fires. -/
theorem claim_C7 (rc : RetryConfig) (fn : Nat → Option GoError)
    (sleepCancel : Nat → Bool) (rand : Nat → ℚ) (e : GoError)
    (hrc : 0 ≤ rc.maxRetries) (hfn : fn 0 = some e) (hret : IsRetryable (some e) = false) :
    rc.executeWithRetry fn (fun _ => false) sleepCancel rand = ⟨some e, 1, [], []⟩ := by
  unfold RetryConfig.executeWithRetry
  exact runRetryAux_nonRetryable rc fn (fun _ => false) sleepCancel rand 0
    (rc.maxRetries + 1).toNat none e (by omega) rfl hfn hret

/-- Apply C7 at the default configuration and a first-invocation
`ValidationError`. -/
theorem claim_C7_witness :
    DefaultRetryConfig.executeWithRetry
        (fun _ => some (.validationError "url" "URL is required" .nilError))
        (fun _ => false) (fun _ => false) (fun _ => 0) =
      ⟨some (.validationError "url" "URL is required" .nilError), 1, [], []⟩ :=
  claim_C7 DefaultRetryConfig (fun _ => some (.validationError "url" "URL is required" .nilError))
    (fun _ => false) (fun _ => 0) (.validationError "url" "URL is required" .nilError)
    (by decide) rfl (by decide)

/-- C8 (confirmed): a context observed as cancelled before the first
attempt makes `executeWithRetry` return the cancellation error with the
operation never invoked; and a cancellation firing during the backoff
wait of any later iteration `i` (after a clean retryable-failure prefix)
aborts the wait and returns the cancellation error — not the operation's
error — after `i + 1` invocations. -/
theorem claim_C8 (rc : RetryConfig) (fn : Nat → Option GoError)
    (ctxDone sleepCancel : Nat → Bool) (rand : Nat → ℚ) (hrc : 0 ≤ rc.maxRetries) :
    (ctxDone 0 = true →
      rc.executeWithRetry fn ctxDone sleepCancel rand = ⟨some .contextCanceled, 0, [], []⟩)
    ∧ ∀ (i : Nat) (e : GoError),
        (∀ j, j < i → ctxDone j = false ∧ sleepCancel j = false ∧
          ∃ e', fn j = some e' ∧ IsRetryable (some e') = true) →
        ctxDone i = false → fn i = some e → IsRetryable (some e) = true →
        (i : Int) < rc.maxRetries → sleepCancel i = true →
        (rc.executeWithRetry fn ctxDone sleepCancel rand).result = some .contextCanceled
        ∧ (rc.executeWithRetry fn ctxDone sleepCancel rand).calls = i + 1 := by
  constructor
  · intro h
    unfold RetryConfig.executeWithRetry
    exact runRetryAux_ctxDone rc fn ctxDone sleepCancel rand 0 (rc.maxRetries + 1).toNat none
      (by omega) h
  · intro i e hpre hc hfn hret hbud hsl
    have h := runRetryAux_sleepCancelAt rc fn ctxDone sleepCancel rand i e hpre hc hfn hret
      hbud hsl (rc.maxRetries + 1).toNat 0 none (by omega) (by omega)
    unfold RetryConfig.executeWithRetry
    exact ⟨h.1, by simpa using h.2⟩

/-- Apply C8: a pre-cancelled context yields the cancellation trace, and a
cancellation during the first backoff wait returns the cancellation error
after one invocation. -/
theorem claim_C8_witness :
    (DefaultRetryConfig.executeWithRetry (fun _ => some (.networkError "conn" .nilError))
        (fun _ => true) (fun _ => false) (fun _ => 0) =
      ⟨some .contextCanceled, 0, [], []⟩)
    ∧ (DefaultRetryConfig.executeWithRetry (fun _ => some (.networkError "conn" .nilError))
        (fun _ => false) (fun _ => true) (fun _ => 0)).result = some .contextCanceled
    ∧ (DefaultRetryConfig.executeWithRetry (fun _ => some (.networkError "conn" .nilError))
        (fun _ => false) (fun _ => true) (fun _ => 0)).calls = 0 + 1 :=
  ⟨(claim_C8 DefaultRetryConfig (fun _ => some (.networkError "conn" .nilError))
      (fun _ => true) (fun _ => false) (fun _ => 0) (by decide)).1 rfl,
    ((claim_C8 DefaultRetryConfig (fun _ => some (.networkError "conn" .nilError))
      (fun _ => false) (fun _ => true) (fun _ => 0) (by decide)).2 0
      (.networkError "conn" .nilError) (fun j hj => absurd hj (by omega))
      rfl rfl (by decide) (by decide) rfl).1,
    ((claim_C8 DefaultRetryConfig (fun _ => some (.networkError "conn" .nilError))
      (fun _ => false) (fun _ => true) (fun _ => 0) (by decide)).2 0
      (.networkError "conn" .nilError) (fun j hj => absurd hj (by omega))
      rfl rfl (by decide) (by decide) rfl).2⟩

/-- C10 (confirmed): every recorded `OnRetry` invocation `(n, e)` of a run
corresponds to the failed invocation with loop index `n - 1` — so the
callback received the 1-based number of the attempt that just failed
together with its error — observed under a live context, classified
retryable, with retry budget left (hence never on success, never for a
non-retryable error, never after the final attempt); the recorded attempt
numbers are exactly `1, 2, …` in order, so the callback fires exactly
once per retry decision, and every completed backoff wait is preceded by
its callback invocation (a wait aborted by cancellation leaves one final
callback invocation without a completed wait). -/
theorem claim_C10 (rc : RetryConfig) (fn : Nat → Option GoError)
    (ctxDone sleepCancel : Nat → Bool) (rand : Nat → ℚ) :
    (∀ (n : Nat) (e : GoError),
        (n, e) ∈ (rc.executeWithRetry fn ctxDone sleepCancel rand).onRetryCalls →
        1 ≤ n ∧ ctxDone (n - 1) = false ∧ fn (n - 1) = some e ∧
          IsRetryable (some e) = true ∧ ((n : Int) - 1 < rc.maxRetries))
    ∧ (rc.executeWithRetry fn ctxDone sleepCancel rand).onRetryCalls.map Prod.fst =
        List.range' 1 (rc.executeWithRetry fn ctxDone sleepCancel rand).onRetryCalls.length
    ∧ ((rc.executeWithRetry fn ctxDone sleepCancel rand).onRetryCalls.length =
          (rc.executeWithRetry fn ctxDone sleepCancel rand).sleeps.length
        ∨ (rc.executeWithRetry fn ctxDone sleepCancel rand).onRetryCalls.length =
          (rc.executeWithRetry fn ctxDone sleepCancel rand).sleeps.length + 1) := by
  have h := runRetryAux_onRetry_trace rc fn ctxDone sleepCancel rand
    (rc.maxRetries + 1).toNat 0 none
  unfold RetryConfig.executeWithRetry
  exact ⟨fun n e hm => h.1 n e hm, h.2.1, h.2.2⟩

/-- Apply C10 at a run that fails retryably once and then succeeds: the
single recorded callback invocation `(1, e)` satisfies the guarantees. -/
theorem claim_C10_witness :
    1 ≤ 1 ∧ (fun _ : Nat => false) (1 - 1) = false
    ∧ (fun i : Nat => if i = 0 then some (GoError.networkError "conn" .nilError) else none)
        (1 - 1) = some (.networkError "conn" .nilError)
    ∧ IsRetryable (some (.networkError "conn" .nilError)) = true
    ∧ ((1 : Int) - 1 < DefaultRetryConfig.maxRetries) :=
  (claim_C10 DefaultRetryConfig
      (fun i => if i = 0 then some (GoError.networkError "conn" .nilError) else none)
      (fun _ => false) (fun _ => false) (fun _ => 0)).1 1
    (.networkError "conn" .nilError) (by decide)

end Filemaker
